import Mathlib

/-
  Verification of the run-gmp-sidecar metrics adjustment engine and
  configuration generator.

  The metrics adjuster itself (initial-point adjuster and start-time-metric
  adjuster under collector/receiver/prometheusreceiver/internal) is not part
  of the available sources; only its tests and its caller NewAppendable are.
  Those parts are therefore modelled from the specification (sections 3, 4.3,
  4.4, 4.5 of the design document), and checked for consistency against the
  expectations recorded in the in-repository tests.

  The configuration generator (confgenerator/confgenerator.go and
  confgenerator/confgenerator_unix.go) is embedded from the sources.
-/

namespace RunGMP

/-- Modelled from the spec: the value part of a raw scraped point (the
metrics adjuster sources under
collector/receiver/prometheusreceiver/internal are missing from the tree), a
closed tagged variant over the four metric kinds of section 3 of the spec.  A Histogram carries its bucket counts and an optional
explicit count field; a Summary carries its count.  Float64 values are
modelled as rationals. -/
inductive RawValue where
  | sum (value : ℚ) (monotonic : Bool)
  | gauge (value : ℚ)
  | histogram (bucketCounts : List ℕ) (count : Option ℕ)
  | summary (count : ℕ)
deriving DecidableEq

/-- Modelled from the spec: the raw cumulative value used for reset
comparison - Sum value, Histogram total count (the explicit count field if
present, otherwise the sum of the bucket counts), Summary count.  Gauges have
no cumulative value. -/
def RawValue.cumulative : RawValue → Option ℚ
  | .sum v _ => some v
  | .gauge _ => none
  | .histogram bc c => some ((c.getD bc.sum : ℕ) : ℚ)
  | .summary c => some ((c : ℕ) : ℚ)

/-- Modelled from the spec: whether the point kind is a monotonic cumulative
kind subject to start-time adjustment and reset detection (monotonic Sum,
Histogram, Summary).  Gauges and non-monotonic sums are not adjusted. -/
def RawValue.isCumulativeMonotonic : RawValue → Bool
  | .sum _ m => m
  | .gauge _ => false
  | .histogram _ _ => true
  | .summary _ => true

/-- Modelled from the spec: a reset is declared if and only if the new raw
cumulative value is strictly less than the previous raw cumulative value. -/
def isReset (prev cur : RawValue) : Bool :=
  match prev.cumulative, cur.cumulative with
  | some pv, some cv => decide (cv < pv)
  | _, _ => false

/-- Modelled from the spec: one data point, its value fields plus the start
timestamp and the observed timestamp (nanoseconds). -/
structure Point where
  val : RawValue
  start : ℕ
  ts : ℕ
deriving DecidableEq

/-- Modelled from the spec: the identity of a timeseries across scrape
cycles - job, target instance, metric name and label set. -/
structure SeriesKey where
  job : String
  inst : String
  name : String
  labels : List (String × String)
deriving DecidableEq

/-- Modelled from the spec: the cached per-series state - the established
start timestamp, the last raw value (for reset comparison) and the wall-clock
time of the last update (for garbage collection). -/
structure SeriesState where
  startTime : ℕ
  lastValue : RawValue
  lastSeen : ℕ
deriving DecidableEq

/-- Modelled from the spec: the series cache, a finite map from series key to
series state (represented as an association list). -/
def Cache := List (SeriesKey × SeriesState)

/-- Lookup of a key in the series cache. -/
def findState : Cache → SeriesKey → Option SeriesState
  | [], _ => none
  | kv :: rest, k => if kv.1 = k then some kv.2 else findState rest k

/-- Insert-or-update of a key in the series cache. -/
def setState : Cache → SeriesKey → SeriesState → Cache
  | [], k, s => [(k, s)]
  | kv :: rest, k, s => if kv.1 = k then (k, s) :: rest else kv :: setState rest k s

/-- Modelled from the spec: the garbage-collection sweep removes every series
whose last-update wall-clock time is older than the retention threshold. -/
def gcSweep (c : Cache) (now retention : ℕ) : Cache :=
  c.filter fun kv => decide (now ≤ kv.2.lastSeen + retention)

/-- Modelled from the spec: Mode B adjustment of one point (the
initial-point adjuster source, metrics_adjuster.go, is missing from the
tree).  The first point observed for a key
establishes the start time as that point's own timestamp; a subsequent point
keeps the cached start time unless its cumulative value strictly decreased,
in which case the start time is reset to the point's own timestamp.  Gauges
and non-monotonic sums are emitted with start timestamp equal to their own
timestamp and do not touch the cache. -/
def adjustPointB (c : Cache) (k : SeriesKey) (p : Point) (now : ℕ) : Cache × Point :=
  if p.val.isCumulativeMonotonic then
    match findState c k with
    | none =>
      (setState c k ⟨p.ts, p.val, now⟩, { p with start := p.ts })
    | some s =>
      if isReset s.lastValue p.val then
        (setState c k ⟨p.ts, p.val, now⟩, { p with start := p.ts })
      else
        (setState c k ⟨s.startTime, p.val, now⟩, { p with start := s.startTime })
  else (c, { p with start := p.ts })

/-- Modelled from the spec: Mode A adjustment of one point (the
start-time-metric adjuster source, starttimemetricadjuster.go, is missing
from the tree).  `resolved` is the value of the
start-time metric found in the current batch, if any; when it is absent and
the fallback policy is enabled, the recorded fallback timestamp is
substituted, otherwise the point passes through unadjusted.  With cumulative
resets enabled the cached state is consulted: a strict decrease of the
cumulative value resets the start time to the point's own timestamp, and
otherwise the start time is re-confirmed from the start-time metric when one
is present (its newly reported value is adopted) or carried over from the
cache when it is not.  Gauges and non-monotonic sums are emitted with start
timestamp equal to their own timestamp. -/
def adjustPointA (fallbackEnabled allowResets : Bool) (fallback : ℕ)
    (resolved : Option ℕ) (c : Cache) (k : SeriesKey) (p : Point) (now : ℕ) :
    Cache × Point :=
  if p.val.isCumulativeMonotonic then
    if allowResets then
      match findState c k with
      | none =>
        let st := match resolved with
          | some v => v
          | none => if fallbackEnabled then fallback else p.start
        (setState c k ⟨st, p.val, now⟩, { p with start := st })
      | some s =>
        if isReset s.lastValue p.val then
          (setState c k ⟨p.ts, p.val, now⟩, { p with start := p.ts })
        else
          let st := match resolved with
            | some v => v
            | none => s.startTime
          (setState c k ⟨st, p.val, now⟩, { p with start := st })
    else
      let st := match resolved with
        | some v => v
        | none => if fallbackEnabled then fallback else p.start
      (c, { p with start := st })
  else (c, { p with start := p.ts })

/-- Modelled from the spec: sequential Mode B adjustment of the points of a
single series, threading the cache. -/
def adjustSeriesB (c : Cache) (k : SeriesKey) (now : ℕ) : List Point → Cache × List Point
  | [] => (c, [])
  | p :: ps =>
    let r := adjustPointB c k p now
    let restR := adjustSeriesB r.1 k now ps
    (restR.1, r.2 :: restR.2)

/-- Metric kinds as declared on a scraped sample. -/
inductive MetricKind where
  | sum
  | gauge
  | histogram
  | summary
deriving DecidableEq

/-- Modelled from the spec: a scraped sample before point extraction, whose
type-specific fields may be missing (a malformed sample). -/
structure ScrapedPoint where
  kind : MetricKind
  value : Option ℚ := none
  monotonic : Bool := true
  count : Option ℕ := none
  bucketCounts : Option (List ℕ) := none
  start : ℕ := 0
  ts : ℕ := 0
deriving DecidableEq

/-- Modelled from the spec: point extraction.  A sample missing the fields
required for its declared kind (value for Sum and Gauge, bucket counts for
Histogram, count for Summary) yields no point. -/
def extractPoint (sp : ScrapedPoint) : Option Point :=
  match sp.kind with
  | .sum => sp.value.map fun v => ⟨.sum v sp.monotonic, sp.start, sp.ts⟩
  | .gauge => sp.value.map fun v => ⟨.gauge v, sp.start, sp.ts⟩
  | .histogram => sp.bucketCounts.map fun bc => ⟨.histogram bc sp.count, sp.start, sp.ts⟩
  | .summary => sp.count.map fun c => ⟨.summary c, sp.start, sp.ts⟩

/-- Modelled from the spec: adjustment of one scraped batch under a given
per-point adjustment step.  A malformed sample is skipped for the cycle: it
produces no output and leaves the cache untouched, and the remaining samples
of the batch are processed; the whole computation is total (never fails). -/
def adjustBatch (step : Cache → SeriesKey → Point → Cache × Point) :
    Cache → List (SeriesKey × ScrapedPoint) → Cache × List Point
  | c, [] => (c, [])
  | c, (k, sp) :: rest =>
    match extractPoint sp with
    | none => adjustBatch step c rest
    | some p =>
      let r := step c k p
      let restR := adjustBatch step r.1 rest
      (restR.1, r.2 :: restR.2)

/-- Modelled from the spec: Mode B batch adjustment. -/
def adjustBatchB (now : ℕ) (c : Cache) (b : List (SeriesKey × ScrapedPoint)) :
    Cache × List Point :=
  adjustBatch (fun c k p => adjustPointB c k p now) c b

/-- Modelled from the spec: Mode A batch adjustment.  `resolved` is the value
of the start-time metric found in the batch, if any; the computation is total
(a missing start-time metric never fails the scrape). -/
def adjustBatchA (fallbackEnabled allowResets : Bool) (fallback : ℕ)
    (resolved : Option ℕ) (now : ℕ) (c : Cache)
    (b : List (SeriesKey × ScrapedPoint)) : Cache × List Point :=
  adjustBatch (fun c k p => adjustPointA fallbackEnabled allowResets fallback resolved c k p now) c b

/-- The two metric adjusters a receiver can install, as chosen by
NewAppendable (collector/receiver/prometheusreceiver/internal/appendable.go).
The initial-point adjuster keeps the useCreatedMetric flag; the
start-time-metric adjuster keeps the regex (its source pattern, if one was
given), the collector-start-time-fallback flag and the
allow-cumulative-resets flag. -/
inductive AdjusterChoice where
  | initialPoint (useCreatedMetric : Bool)
  | startTimeMetric (startTimeMetricRegex : Option String)
      (useCollectorStartTimeFallback : Bool) (allowCumulativeResets : Bool)
deriving DecidableEq

/-- The adjuster-selection logic of NewAppendable
(collector/receiver/prometheusreceiver/internal/appendable.go): when
useStartTimeMetric is false the initial-point adjuster is installed,
otherwise the start-time-metric adjuster with the given regex, fallback flag
and cumulative-resets flag. -/
def newAppendableAdjuster (useStartTimeMetric : Bool)
    (startTimeMetricRegex : Option String)
    (useCreatedMetric useCollectorStartTimeFallback allowCumulativeResets : Bool) :
    AdjusterChoice :=
  if !useStartTimeMetric then
    .initialPoint useCreatedMetric
  else
    .startTimeMetric startTimeMetricRegex useCollectorStartTimeFallback allowCumulativeResets

/-- The protected target labels of confgenerator/confgenerator_unix.go. -/
def protectedLabels : List String :=
  ["project_id", "location", "cluster", "namespace", "job", "cloud_run_instance", "__address__"]

/-- isProtectedLabel of confgenerator/confgenerator_unix.go. -/
def isProtectedLabel (s : String) : Bool :=
  protectedLabels.contains s

/-- A compiled relabeling regex, modelled by its matching function (the
regex engine itself is an external collaborator; relabel.Regexp matching is
anchored full-string matching). -/
def Matcher := String → Bool

/-- matchesAnyProtectedLabel of confgenerator/confgenerator_unix.go. -/
def matchesAnyProtectedLabel (re : Matcher) : Bool :=
  protectedLabels.any re

/-- matchesAllProtectedLabels of confgenerator/confgenerator_unix.go. -/
def matchesAllProtectedLabels (re : Matcher) : Bool :=
  protectedLabels.all re

/-- RelabelingRule of confgenerator/confgenerator.go: the user-facing
relabeling rule from the RunMonitoring configuration. -/
structure RelabelingRule where
  sourceLabels : List String := []
  separator : String := ""
  targetLabel : String := ""
  regex : String := ""
  modulus : ℕ := 0
  replacement : String := ""
  action : String := ""

/-- The produced prometheus relabel.Config: the action is stored lowercased,
and the regex field is set only when the rule provided a non-empty regex
(mirroring convertRelabelingRule in confgenerator/confgenerator.go). -/
structure RelabelConfig where
  action : String
  sourceLabels : List String
  separator : String
  targetLabel : String
  regex : Option Matcher
  modulus : ℕ
  replacement : String

/-- The lowercasing applied to the rule action (strings.ToLower in Go,
character-wise ASCII lowering for the action names involved). -/
def toLowerStr (s : String) : String :=
  ⟨s.data.map Char.toLower⟩

/-- The effective regex used by the protected-label checks of
convertRelabelingRule: the default pattern matches everything when the rule
gives no regex, otherwise the rule's regex must compile (`compile` stands for
relabel.NewRegexp of the external prometheus relabel package). -/
def effMatcher (compile : String → Option Matcher) (r : RelabelingRule) : Option Matcher :=
  if r.regex = "" then some (fun _ => true) else compile r.regex

/-- convertRelabelingRule of confgenerator/confgenerator.go: converts a rule
to a relabel configuration, returning an error for every rule that could
modify a protected target label (replace/hashmod/empty-action onto a
protected target label, labeldrop matching a protected label, labelkeep not
matching every protected label, labelmap always), for an invalid regex, and
for an unknown action.  The action is lowercased before the checks, as
upstream does when digesting the configuration. -/
def convertRelabelingRule (compile : String → Option Matcher) (r : RelabelingRule) :
    Except String RelabelConfig :=
  let act := toLowerStr r.action
  let base : RelabelConfig :=
    { action := act, sourceLabels := r.sourceLabels, separator := r.separator,
      targetLabel := r.targetLabel, regex := none, modulus := r.modulus,
      replacement := r.replacement }
  let compiled : Except String (Matcher × RelabelConfig) :=
    if r.regex = "" then
      .ok (fun _ => true, base)
    else
      match compile r.regex with
      | none => .error ("invalid regex " ++ r.regex)
      | some m => .ok (m, { base with regex := some m })
  match compiled with
  | .error e => .error e
  | .ok (re, rcfg) =>
    if act = "replace" ∨ act = "hashmod" ∨ act = "" then
      if isProtectedLabel r.targetLabel then
        .error ("cannot relabel with action " ++ r.action ++ " onto protected label " ++ r.targetLabel)
      else
        .ok rcfg
    else if act = "labeldrop" then
      if matchesAnyProtectedLabel re then
        .error ("regex " ++ r.regex ++ " would drop at least one of the protected labels")
      else
        .ok rcfg
    else if act = "labelkeep" then
      if !matchesAllProtectedLabels re then
        .error ("regex " ++ r.regex ++ " would drop at least one of the protected labels")
      else
        .ok rcfg
    else if act = "labelmap" then
      .error ("relabeling with action " ++ r.action ++ " not allowed")
    else if act = "keep" ∨ act = "drop" then
      .ok rcfg
    else
      .error ("unknown relabeling action " ++ r.action)

/-- CloudRunEnvironment of confgenerator/confgenerator_unix.go. -/
structure CloudRunEnvironment where
  service : String
  revision : String
  configuration : String

/-- ScrapeEndpoint of confgenerator/confgenerator.go (the params field,
which the claims never touch, is omitted). -/
structure ScrapeEndpoint where
  port : String
  scheme : String := ""
  path : String := ""
  proxyURL : String := ""
  interval : String := ""
  timeout : String := ""
  metricRelabeling : List RelabelingRule := []

/-- ScrapeLimits of confgenerator/confgenerator.go. -/
structure ScrapeLimits where
  samples : ℕ := 0
  labels : ℕ := 0
  labelNameLength : ℕ := 0
  labelValueLength : ℕ := 0

/-- RunMonitoringConfig of confgenerator/confgenerator.go (the fields the
pipeline generation reads: the object name, the endpoints, the target-labels
metadata selection, the scrape limits and the Cloud Run environment). -/
structure RunMonitoringConfig where
  name : String
  endpoints : List ScrapeEndpoint
  targetLabelsMetadata : Option (List String)
  limits : Option ScrapeLimits
  env : Option CloudRunEnvironment

/-- allowedTargetMetadata of confgenerator/confgenerator.go. -/
def allowedTargetMetadata : List String :=
  ["revision", "service", "configuration"]

/-- A replace relabel configuration as built inline by
relabelingsForMetadata and endpointScrapeConfig in
confgenerator/confgenerator.go. -/
def replaceConfig (target repl : String) : RelabelConfig :=
  { action := "replace", sourceLabels := ["__address__"], separator := "",
    targetLabel := target, regex := none, modulus := 0, replacement := repl }

/-- relabelingsForMetadata of confgenerator/confgenerator.go: one replace
rule per requested metadata key, in the source's order (service, revision,
configuration); nothing when the environment is absent. -/
def relabelingsForMetadata (keys : List String) (env : Option CloudRunEnvironment) :
    List RelabelConfig :=
  match env with
  | none => []
  | some e =>
    (if keys.contains "service" then [replaceConfig "cloud_run_service" e.service] else []) ++
    (if keys.contains "revision" then [replaceConfig "cloud_run_revision" e.revision] else []) ++
    (if keys.contains "configuration" then [replaceConfig "cloud_run_configuration" e.configuration] else [])

/-- The prometheus ScrapeConfig fields populated by endpointScrapeConfig in
confgenerator/confgenerator.go. -/
structure ScrapeConfig where
  jobName : String
  staticTarget : String
  metricsPath : String
  scheme : String
  scrapeInterval : ℕ
  scrapeTimeout : ℕ
  relabelConfigs : List RelabelConfig
  metricRelabelConfigs : List RelabelConfig
  sampleLimit : ℕ
  labelLimit : ℕ
  labelNameLengthLimit : ℕ
  labelValueLengthLimit : ℕ

/-- Conversion of every metric relabeling rule of an endpoint, failing on the
first invalid rule (the loop in endpointScrapeConfig). -/
def convertAllRules (compile : String → Option Matcher) :
    List RelabelingRule → Except String (List RelabelConfig)
  | [] => .ok []
  | r :: rest =>
    match convertRelabelingRule compile r with
    | .error e => .error e
    | .ok rcfg =>
      match convertAllRules compile rest with
      | .error e => .error e
      | .ok rcfgs => .ok (rcfg :: rcfgs)

/-- endpointScrapeConfig of confgenerator/confgenerator.go: fails when the
Cloud Run metadata is absent, when the scrape interval or timeout does not
parse (`parseDuration` stands for the external prommodel.ParseDuration), when
the timeout exceeds the interval, or when a metric relabeling rule is
rejected; otherwise builds the scrape config with the static target, the
protected relabelings (cluster, namespace, instance) appended after the
metadata relabelings, and the endpoint's path, scheme and limits. -/
def endpointScrapeConfig (compile : String → Option Matcher)
    (parseDuration : String → Option ℕ) (id : String) (ep : ScrapeEndpoint)
    (relabelCfgs : List RelabelConfig) (limits : Option ScrapeLimits)
    (env : Option CloudRunEnvironment) : Except String ScrapeConfig :=
  match env with
  | none => .error "metadata from Cloud Run was not found"
  | some e =>
    let relabelCfgsFull := relabelCfgs ++
      [replaceConfig "cluster" "__run__",
       replaceConfig "namespace" e.service,
       replaceConfig "instance" ep.port]
    match parseDuration ep.interval with
    | none => .error "invalid scrape interval"
    | some interval =>
      let timeoutRes : Except String ℕ :=
        if ep.timeout = "" then .ok interval
        else
          match parseDuration ep.timeout with
          | none => .error "invalid scrape timeout"
          | some t =>
            if interval < t then
              .error "scrape timeout must not be greater than scrape interval"
            else
              .ok t
      match timeoutRes with
      | .error err => .error err
      | .ok timeout =>
        let metricsPath := if ep.path = "" then "/metrics" else ep.path
        match convertAllRules compile ep.metricRelabeling with
        | .error err => .error err
        | .ok mrc =>
          .ok { jobName := id ++ "/" ++ ep.port,
                staticTarget := "0.0.0.0:" ++ ep.port,
                metricsPath := metricsPath,
                scheme := ep.scheme,
                scrapeInterval := interval,
                scrapeTimeout := timeout,
                relabelConfigs := relabelCfgsFull,
                metricRelabelConfigs := mrc,
                sampleLimit := (limits.map (·.samples)).getD 0,
                labelLimit := (limits.map (·.labels)).getD 0,
                labelNameLengthLimit := (limits.map (·.labelNameLength)).getD 0,
                labelValueLengthLimit := (limits.map (·.labelValueLength)).getD 0 }

/-- The per-endpoint step of RunMonitoringConfig.scrapeConfigs together with
RunMonitoringConfig.endpointScrapeConfig: validate the requested metadata
labels against the allowed set, then build the endpoint scrape config. -/
def rcEndpointScrapeConfig (compile : String → Option Matcher)
    (parseDuration : String → Option ℕ) (rc : RunMonitoringConfig)
    (ep : ScrapeEndpoint) : Except String ScrapeConfig :=
  let keys := rc.targetLabelsMetadata.getD []
  if keys.all (fun l => allowedTargetMetadata.contains l) then
    endpointScrapeConfig compile parseDuration ("RunMonitoring/" ++ rc.name) ep
      (relabelingsForMetadata keys rc.env) rc.limits rc.env
  else
    .error "metadata label not allowed"

/-- scrapeConfigs of confgenerator/confgenerator.go: one scrape config per
endpoint, failing on the first invalid endpoint. -/
def scrapeConfigs (compile : String → Option Matcher)
    (parseDuration : String → Option ℕ) (rc : RunMonitoringConfig) :
    List ScrapeEndpoint → Except String (List ScrapeConfig)
  | [] => .ok []
  | ep :: rest =>
    match rcEndpointScrapeConfig compile parseDuration rc ep with
    | .error e => .error e
    | .ok sc =>
      match scrapeConfigs compile parseDuration rc rest with
      | .error e => .error e
      | .ok scs => .ok (sc :: scs)

/-- The prometheus receiver component built by
RunMonitoringConfig.OTelReceiverPipeline in confgenerator/confgenerator.go,
with its four boolean options and the nested scrape configs. -/
structure Component where
  type : String
  preserveUntyped : Bool
  useStartTimeMetric : Bool
  useCollectorStartTimeFallback : Bool
  allowCumulativeResets : Bool
  scrapeConfigList : List ScrapeConfig

/-- ReceiverPipeline of confgenerator/otel: the receiver component and the
processors chained after it. -/
structure ReceiverPipeline where
  receiver : Component
  processors : List String

/-- OTelReceiverPipeline of confgenerator/confgenerator.go: translates the
RunMonitoringConfig into the prometheus receiver pipeline, with
preserve_untyped, use_start_time_metric, use_collector_start_time_fallback
and allow_cumulative_resets all set to true and the GMP group-by-attrs
processor chained after the receiver. -/
def OTelReceiverPipeline (compile : String → Option Matcher)
    (parseDuration : String → Option ℕ) (rc : RunMonitoringConfig) :
    Except String ReceiverPipeline :=
  match scrapeConfigs compile parseDuration rc rc.endpoints with
  | .error e => .error e
  | .ok scs =>
    .ok { receiver :=
            { type := "prometheus",
              preserveUntyped := true,
              useStartTimeMetric := true,
              useCollectorStartTimeFallback := true,
              allowCumulativeResets := true,
              scrapeConfigList := scs },
          processors := ["groupbyattrs"] }

/-! Helper lemmas about the series cache. -/

theorem findState_nil (k : SeriesKey) : findState [] k = none := rfl

theorem findState_setState_self (c : Cache) (k : SeriesKey) (s : SeriesState) :
    findState (setState c k s) k = some s := by
  induction c with
  | nil => simp [setState, findState]
  | cons kv rest ih =>
    by_cases h : kv.1 = k
    · simp [setState, findState, h]
    · simp [setState, findState, h, ih]

theorem adjustPointB_ts (c : Cache) (k : SeriesKey) (p : Point) (now : ℕ) :
    (adjustPointB c k p now).2.ts = p.ts := by
  unfold adjustPointB
  split
  · split
    · rfl
    · split <;> rfl
  · rfl

theorem adjustPointB_val (c : Cache) (k : SeriesKey) (p : Point) (now : ℕ) :
    (adjustPointB c k p now).2.val = p.val := by
  unfold adjustPointB
  split
  · split
    · rfl
    · split <;> rfl
  · rfl

/-! Claim theorems. -/

/-- Claim C3: under Mode B (the initial-point adjuster), a single monotonic
Sum series observed at t1 = 126 s with value 44, t2 = t1 + 1 h with value 66,
t3 = t2 + 1 h with value 55 and t4 = t3 + 1 h with value 72 is emitted with
start timestamps t1, t1, t3 and t3: the first point establishes the start
time as its own timestamp, and the decrease from 66 to 55 resets it to
t3. -/
theorem claim3_modeB_scenario :
    ((adjustSeriesB [] ⟨"job", "0", "test_sum", []⟩ 0
      [⟨.sum 44 true, 126 * 10 ^ 9, 126 * 10 ^ 9⟩,
       ⟨.sum 66 true, 3726 * 10 ^ 9, 3726 * 10 ^ 9⟩,
       ⟨.sum 55 true, 7326 * 10 ^ 9, 7326 * 10 ^ 9⟩,
       ⟨.sum 72 true, 10926 * 10 ^ 9, 10926 * 10 ^ 9⟩]).2.map Point.start) =
    [126 * 10 ^ 9, 126 * 10 ^ 9, 7326 * 10 ^ 9, 7326 * 10 ^ 9] := by
  decide

/-- Claim C5: a Gauge data point is never reset-adjusted - under both modes,
for every cache contents (so in particular regardless of any decrease
relative to a previously cached value for the same key), the adjusted point's
start timestamp equals that point's own timestamp. -/
theorem claim5_gauge (c : Cache) (k : SeriesKey) (p : Point) (now fallback : ℕ)
    (resolved : Option ℕ) (fallbackEnabled allowResets : Bool) (v : ℚ)
    (h : p.val = .gauge v) :
    (adjustPointB c k p now).2.start = p.ts ∧
    (adjustPointA fallbackEnabled allowResets fallback resolved c k p now).2.start = p.ts := by
  constructor
  · unfold adjustPointB
    simp [h, RawValue.isCumulativeMonotonic]
  · unfold adjustPointA
    simp [h, RawValue.isCumulativeMonotonic]

/-- Witness for claim C5 at a concrete gauge point with a cached lower
previous value. -/
theorem claim5_gauge_witness :
    (⟨.gauge 55, 0, 300⟩ : Point).val = .gauge 55 ∧
    (adjustPointB [(⟨"j", "i", "g", []⟩, ⟨100, .gauge 66, 0⟩)] ⟨"j", "i", "g", []⟩
      ⟨.gauge 55, 0, 300⟩ 0).2.start = 300 ∧
    (adjustPointA true true 999 none [(⟨"j", "i", "g", []⟩, ⟨100, .gauge 66, 0⟩)]
      ⟨"j", "i", "g", []⟩ ⟨.gauge 55, 0, 300⟩ 0).2.start = 300 := by
  refine ⟨rfl, ?_⟩
  exact claim5_gauge [(⟨"j", "i", "g", []⟩, ⟨100, .gauge 66, 0⟩)] ⟨"j", "i", "g", []⟩
    ⟨.gauge 55, 0, 300⟩ 0 999 none true true 55 rfl

/-- Claim C1 (amended): for every cumulative series (Sum, Histogram or
Summary) with cached prior state for the same SeriesKey, the adjuster
declares a reset if and only if the new raw cumulative value (Sum value,
Histogram total count, Summary count) is strictly less than the cached
previous value; for equal consecutive cumulative values no reset is declared,
and the start timestamp is carried over unchanged in Mode B and in Mode A
when the batch contains no start-time metric (when one is present, Mode A
adopts its newly reported value instead, per the re-confirmation rule of the
spec, which is what the counterexample exhibits). -/
theorem claim1_reset_iff (c : Cache) (k : SeriesKey) (s : SeriesState) (p : Point)
    (now fallback : ℕ) (fallbackEnabled : Bool) (pv cv : ℚ)
    (h1 : findState c k = some s)
    (hm : p.val.isCumulativeMonotonic = true)
    (hcv : p.val.cumulative = some cv)
    (hpv : s.lastValue.cumulative = some pv) :
    isReset s.lastValue p.val = decide (cv < pv) ∧
    (adjustPointB c k p now).2.start = (if cv < pv then p.ts else s.startTime) ∧
    (adjustPointA fallbackEnabled true fallback none c k p now).2.start =
      (if cv < pv then p.ts else s.startTime) := by
  have hr : isReset s.lastValue p.val = decide (cv < pv) := by
    unfold isReset
    rw [hpv, hcv]
  refine ⟨hr, ?_, ?_⟩
  · unfold adjustPointB
    simp only [hm, if_true, h1, hr]
    by_cases hlt : cv < pv
    · simp [hlt]
    · simp [hlt]
  · unfold adjustPointA
    simp only [hm, if_true, h1, hr]
    by_cases hlt : cv < pv
    · simp [hlt]
    · simp [hlt]

/-- Witness for claim C1 at a concrete plateau (cached Sum value 50 followed
by Sum value 50): no reset, and the Mode B start timestamp is the cached
one. -/
theorem claim1_reset_iff_witness :
    findState [(⟨"j", "i", "s", []⟩, ⟨100, .sum 50 true, 0⟩)] ⟨"j", "i", "s", []⟩ =
      some ⟨100, .sum 50 true, 0⟩ ∧
    (⟨.sum 50 true, 0, 200⟩ : Point).val.isCumulativeMonotonic = true ∧
    (adjustPointB [(⟨"j", "i", "s", []⟩, ⟨100, .sum 50 true, 0⟩)] ⟨"j", "i", "s", []⟩
      ⟨.sum 50 true, 0, 200⟩ 0).2.start = (if (50 : ℚ) < 50 then 200 else 100) :=
  ⟨by decide, rfl,
   (claim1_reset_iff [(⟨"j", "i", "s", []⟩, ⟨100, .sum 50 true, 0⟩)] ⟨"j", "i", "s", []⟩
      ⟨100, .sum 50 true, 0⟩ ⟨.sum 50 true, 0, 200⟩ 0 0 true 50 50
      (by decide) rfl rfl rfl).2.1⟩

/-- Claim C1 counterexample: in Mode A, on a plateau (cached cumulative
value 44 followed by value 44 for the same key) with a start-time metric
resolved from the batch to 150, no reset is declared yet the emitted start
timestamp is not the cached one (100): the newly reported start-time value is
adopted, so the start timestamp is not carried over unchanged. -/
theorem claim1_cx :
    isReset (.sum 44 true) (.sum 44 true) = false ∧
    (adjustPointA true true 999 (some 150)
        [(⟨"job", "0", "test_sum", []⟩, ⟨100, .sum 44 true, 0⟩)]
        ⟨"job", "0", "test_sum", []⟩ ⟨.sum 44 true, 0, 200⟩ 0).2.start ≠ 100 := by
  decide

/-! Auxiliary lemmas for the Mode B start-timestamp invariant. -/

theorem adjustPointB_start_le (c : Cache) (k : SeriesKey) (p : Point) (now : ℕ)
    (h : ∀ s, findState c k = some s → s.startTime ≤ p.ts) :
    (adjustPointB c k p now).2.start ≤ p.ts := by
  unfold adjustPointB
  by_cases hm : p.val.isCumulativeMonotonic = true
  · simp only [hm, if_true]
    cases hf : findState c k with
    | none => simp
    | some s =>
      by_cases hr : isReset s.lastValue p.val = true
      · simp [hr]
      · simp only [hr, if_false, Bool.false_eq_true, if_neg]
        exact h s hf
  · simp [hm]

theorem adjustPointB_state_le (c : Cache) (k : SeriesKey) (p : Point) (now : ℕ)
    (h : ∀ s, findState c k = some s → s.startTime ≤ p.ts) :
    ∀ s2, findState (adjustPointB c k p now).1 k = some s2 → s2.startTime ≤ p.ts := by
  intro s2 hs2
  unfold adjustPointB at hs2
  by_cases hm : p.val.isCumulativeMonotonic = true
  · simp only [hm, if_true] at hs2
    cases hf : findState c k with
    | none =>
      rw [hf] at hs2
      simp only at hs2
      rw [findState_setState_self] at hs2
      injection hs2 with h2
      rw [← h2]
    | some s =>
      rw [hf] at hs2
      simp only at hs2
      by_cases hr : isReset s.lastValue p.val = true
      · simp only [hr, if_true] at hs2
        rw [findState_setState_self] at hs2
        injection hs2 with h2
        rw [← h2]
      · simp only [hr, Bool.false_eq_true, if_false, if_neg] at hs2
        rw [findState_setState_self] at hs2
        injection hs2 with h2
        rw [← h2]
        exact h s hf
  · simp only [hm, if_false, if_neg] at hs2
    exact h s2 hs2

theorem adjustSeriesB_start_le (k : SeriesKey) (now : ℕ) :
    ∀ (ps : List Point) (c : Cache) (t0 : ℕ),
      (∀ s, findState c k = some s → s.startTime ≤ t0) →
      List.Chain (· ≤ ·) t0 (ps.map Point.ts) →
      ((adjustSeriesB c k now ps).2.all fun q => decide (q.start ≤ q.ts)) = true := by
  intro ps
  induction ps with
  | nil =>
    intro c t0 _ _
    rfl
  | cons p ps ih =>
    intro c t0 hc hchain
    rw [List.map_cons, List.chain_cons] at hchain
    obtain ⟨h01, hchain2⟩ := hchain
    have hle : ∀ s, findState c k = some s → s.startTime ≤ p.ts :=
      fun s hs => le_trans (hc s hs) h01
    have hstep : (adjustPointB c k p now).2.start ≤ p.ts :=
      adjustPointB_start_le c k p now hle
    have hts : (adjustPointB c k p now).2.ts = p.ts := adjustPointB_ts c k p now
    have hrest := ih (adjustPointB c k p now).1 p.ts
      (adjustPointB_state_le c k p now hle) hchain2
    simp only [adjustSeriesB, List.all_cons, hrest, Bool.and_true]
    rw [hts]
    exact decide_eq_true hstep

/-- Claim C2 (amended): for every monotonic Sum, Histogram or Summary series
whose points are adjusted by the Mode B (initial-point) engine in
non-decreasing timestamp order, the start timestamp of every emitted adjusted
point is less than or equal to that point's own observed timestamp.  (The
claim's Mode A half fails: with the fallback policy the emitted start
timestamp can exceed the point's timestamp, see the counterexample.) -/
theorem claim2_modeB_start_le (k : SeriesKey) (now : ℕ) (ps : List Point)
    (h : List.Chain' (· ≤ ·) (ps.map Point.ts)) :
    ((adjustSeriesB [] k now ps).2.all fun q => decide (q.start ≤ q.ts)) = true := by
  cases ps with
  | nil => rfl
  | cons p ps =>
    apply adjustSeriesB_start_le k now (p :: ps) [] p.ts
    · intro s hs
      simp [findState] at hs
    · rw [List.map_cons, List.chain_cons]
      refine ⟨le_refl _, ?_⟩
      rw [List.map_cons] at h
      exact h

/-- Witness for claim C2 on a concrete two-point monotonic Sum series with a
reset (44 then 30): both emitted start timestamps are bounded by the points'
own timestamps. -/
theorem claim2_modeB_start_le_witness :
    List.Chain' (· ≤ ·)
      (([⟨.sum 44 true, 0, 100⟩, ⟨.sum 30 true, 0, 200⟩] : List Point).map Point.ts) ∧
    ((adjustSeriesB [] ⟨"j", "i", "s", []⟩ 0
      [⟨.sum 44 true, 0, 100⟩, ⟨.sum 30 true, 0, 200⟩]).2.all
      fun q => decide (q.start ≤ q.ts)) = true :=
  ⟨by norm_num [List.map_cons, List.chain'_cons, List.chain'_singleton],
   claim2_modeB_start_le ⟨"j", "i", "s", []⟩ 0
     [⟨.sum 44 true, 0, 100⟩, ⟨.sum 30 true, 0, 200⟩]
     (by norm_num [List.map_cons, List.chain'_cons, List.chain'_singleton])⟩

/-- Claim C2 counterexample: in Mode A with the fallback policy enabled (the
configuration of the in-repository fallback tests, where the fallback is the
collector start time and the scraped points carry much older timestamps), a
first-seen monotonic Sum point with timestamp 126 s is emitted with the
fallback start timestamp, which is greater than the point's own timestamp. -/
theorem claim2_cx :
    ¬ ((adjustPointA true true (1767225600 * 10 ^ 9) none []
        ⟨"job", "0", "test_sum", []⟩
        ⟨.sum 16 true, 0, 126 * 10 ^ 9⟩ 0).2.start ≤ 126 * 10 ^ 9) := by
  decide

/-! Auxiliary lemmas for the Mode A fallback behaviour. -/

theorem adjustPointA_noResets (fallbackEnabled : Bool) (fallback : ℕ)
    (resolved : Option ℕ) (c : Cache) (k : SeriesKey) (p : Point) (now : ℕ) :
    adjustPointA fallbackEnabled false fallback resolved c k p now =
      (c, { p with start :=
        if p.val.isCumulativeMonotonic then
          (match resolved with
           | some v => v
           | none => if fallbackEnabled then fallback else p.start)
        else p.ts }) := by
  by_cases hm : p.val.isCumulativeMonotonic = true <;>
    simp [adjustPointA, hm]

theorem adjustBatch_cons_none (step : Cache → SeriesKey → Point → Cache × Point)
    (c : Cache) (k : SeriesKey) (sp : ScrapedPoint)
    (rest : List (SeriesKey × ScrapedPoint)) (hx : extractPoint sp = none) :
    adjustBatch step c ((k, sp) :: rest) = adjustBatch step c rest := by
  simp only [adjustBatch, hx]

theorem adjustBatch_cons_some (step : Cache → SeriesKey → Point → Cache × Point)
    (c : Cache) (k : SeriesKey) (sp : ScrapedPoint)
    (rest : List (SeriesKey × ScrapedPoint)) (p : Point)
    (hx : extractPoint sp = some p) :
    adjustBatch step c ((k, sp) :: rest) =
      ((adjustBatch step (step c k p).1 rest).1,
        (step c k p).2 :: (adjustBatch step (step c k p).1 rest).2) := by
  simp only [adjustBatch, hx]

theorem adjustBatch_all (step : Cache → SeriesKey → Point → Cache × Point)
    (P : Point → Bool) (hstep : ∀ c k p, P (step c k p).2 = true) :
    ∀ (b : List (SeriesKey × ScrapedPoint)) (c : Cache),
      ((adjustBatch step c b).2.all P) = true := by
  intro b
  induction b with
  | nil =>
    intro c
    rfl
  | cons x rest ih =>
    intro c
    obtain ⟨k, sp⟩ := x
    cases hx : extractPoint sp with
    | none =>
      rw [adjustBatch_cons_none step c k sp rest hx]
      exact ih c
    | some p =>
      rw [adjustBatch_cons_some step c k sp rest p hx]
      simp [List.all_cons, hstep, ih]

theorem adjustBatchA_noResets_all_fallback (fallback now : ℕ)
    (b : List (SeriesKey × ScrapedPoint)) (c : Cache) :
    ((adjustBatchA true false fallback none now c b).2.all
      fun q => !q.val.isCumulativeMonotonic || decide (q.start = fallback)) = true := by
  unfold adjustBatchA
  apply adjustBatch_all
  intro c2 k p
  show (!(adjustPointA true false fallback none c2 k p now).2.val.isCumulativeMonotonic ||
    decide ((adjustPointA true false fallback none c2 k p now).2.start = fallback)) = true
  rw [adjustPointA_noResets]
  by_cases hm : p.val.isCumulativeMonotonic = true
  · simp [hm]
  · simp [hm]

/-- Claim C4 (amended): under Mode A with the fallback policy enabled, for
every scraped batch containing no metric matching the start-time-metric
pattern, (i) with cumulative resets disabled every cumulative (monotonic Sum,
Histogram, Summary) data point is emitted with start timestamp equal to the
recorded fallback timestamp, for every batch and every cache contents, and
(ii) with cumulative resets enabled the same holds for every cumulative point
whose SeriesKey has no cached state; the adjustment is total, so the batch is
never failed.  (The claim's unconditional form fails once a reset has been
cached: see the counterexample.) -/
theorem claim4_fallback :
    (∀ (c : Cache) (b : List (SeriesKey × ScrapedPoint)) (fallback now : ℕ),
      ((adjustBatchA true false fallback none now c b).2.all
        fun q => !q.val.isCumulativeMonotonic || decide (q.start = fallback)) = true) ∧
    (∀ (c : Cache) (k : SeriesKey) (p : Point) (fallback now : ℕ),
      findState c k = none → p.val.isCumulativeMonotonic = true →
      (adjustPointA true true fallback none c k p now).2.start = fallback) := by
  constructor
  · intro c b fallback now
    exact adjustBatchA_noResets_all_fallback fallback now b c

  · intro c k p fallback now hf hm
    unfold adjustPointA
    simp [hm, hf]

/-- Witness for claim C4 at a concrete first-seen monotonic Sum point with
cumulative resets enabled: the emitted start timestamp is the fallback. -/
theorem claim4_fallback_witness :
    findState [] ⟨"j", "i", "s", []⟩ = none ∧
    (⟨.sum 44 true, 0, 100⟩ : Point).val.isCumulativeMonotonic = true ∧
    (adjustPointA true true 555 none [] ⟨"j", "i", "s", []⟩
      ⟨.sum 44 true, 0, 100⟩ 0).2.start = 555 :=
  ⟨rfl, rfl,
   claim4_fallback.2 [] ⟨"j", "i", "s", []⟩ ⟨.sum 44 true, 0, 100⟩ 555 0 rfl rfl⟩

/-- Claim C4 counterexample: Mode A with fallback enabled and cumulative
resets enabled (the configuration the sidecar always generates), two
consecutive single-point batches with no start-time metric and decreasing Sum
values 66 then 55: the second batch's point is emitted with its own timestamp
(the reset time), not the recorded fallback timestamp. -/
theorem claim4_cx :
    ((adjustBatchA true true (1767225600 * 10 ^ 9) none 0
        ((adjustBatchA true true (1767225600 * 10 ^ 9) none 0 []
          [(⟨"job", "0", "test_sum", []⟩,
            { kind := .sum, value := some 66, monotonic := true,
              start := 3726 * 10 ^ 9, ts := 3726 * 10 ^ 9 })]).1)
        [(⟨"job", "0", "test_sum", []⟩,
          { kind := .sum, value := some 55, monotonic := true,
            start := 7326 * 10 ^ 9, ts := 7326 * 10 ^ 9 })]).2.map Point.start =
      [7326 * 10 ^ 9]) ∧ (7326 * 10 ^ 9 : ℕ) ≠ 1767225600 * 10 ^ 9 := by
  decide

/-! Auxiliary lemmas for garbage-collection eviction. -/

theorem findState_gcSweep_stale (k : SeriesKey) (retention now : ℕ) :
    ∀ c : Cache,
      (c.all fun kv => !(decide (kv.1 = k)) || decide (kv.2.lastSeen + retention < now)) = true →
      findState (gcSweep c now retention) k = none := by
  intro c
  induction c with
  | nil =>
    intro _
    rfl
  | cons kv rest ih =>
    intro hstale
    rw [List.all_cons, Bool.and_eq_true] at hstale
    obtain ⟨hkv, hrest⟩ := hstale
    show findState (List.filter _ (kv :: rest)) k = none
    rw [List.filter_cons]
    by_cases hp : now ≤ kv.2.lastSeen + retention
    · simp only [hp, decide_eq_true_eq, if_pos]
      show findState (kv :: _) k = none
      unfold findState
      by_cases hk : kv.1 = k
      · exfalso
        rw [hk] at hkv
        simp at hkv
        omega
      · simp only [hk, if_neg, if_false]
        exact ih hrest
    · simp only [decide_eq_true_eq, hp, if_neg, if_false]
      exact ih hrest

theorem adjustPointB_none_congr (c : Cache) (k : SeriesKey) (p : Point) (now2 : ℕ)
    (h : findState c k = none) :
    (adjustPointB c k p now2).2 = (adjustPointB [] k p now2).2 ∧
    findState (adjustPointB c k p now2).1 k = findState (adjustPointB [] k p now2).1 k := by
  by_cases hm : p.val.isCumulativeMonotonic = true <;>
    simp [adjustPointB, h, hm, findState, findState_setState_self]

theorem adjustPointA_none_congr (fallbackEnabled allowResets : Bool) (fallback : ℕ)
    (resolved : Option ℕ) (c : Cache) (k : SeriesKey) (p : Point) (now2 : ℕ)
    (h : findState c k = none) :
    (adjustPointA fallbackEnabled allowResets fallback resolved c k p now2).2 =
      (adjustPointA fallbackEnabled allowResets fallback resolved [] k p now2).2 ∧
    findState (adjustPointA fallbackEnabled allowResets fallback resolved c k p now2).1 k =
      findState (adjustPointA fallbackEnabled allowResets fallback resolved [] k p now2).1 k := by
  cases allowResets <;>
    by_cases hm : p.val.isCumulativeMonotonic = true <;>
      simp [adjustPointA, h, hm, findState, findState_setState_self]

/-- Claim C6: for every SeriesKey whose cached SeriesState has been evicted
by a GC sweep (every cached entry for this key is stale at sweep time), the
next observation of that key is adjusted exactly as a first-ever observation
in either mode - the emitted point and the resulting cached state for the key
coincide with those of an adjustment that starts with no cached state at all
(no leaked prior state). -/
theorem claim6_gc_fresh (c : Cache) (k : SeriesKey) (retention now : ℕ)
    (hstale : (c.all fun kv =>
      !(decide (kv.1 = k)) || decide (kv.2.lastSeen + retention < now)) = true) :
    findState (gcSweep c now retention) k = none ∧
    (∀ (p : Point) (now2 : ℕ),
      (adjustPointB (gcSweep c now retention) k p now2).2 =
        (adjustPointB [] k p now2).2 ∧
      findState (adjustPointB (gcSweep c now retention) k p now2).1 k =
        findState (adjustPointB [] k p now2).1 k) ∧
    (∀ (fallbackEnabled allowResets : Bool) (fallback : ℕ) (resolved : Option ℕ)
        (p : Point) (now2 : ℕ),
      (adjustPointA fallbackEnabled allowResets fallback resolved
          (gcSweep c now retention) k p now2).2 =
        (adjustPointA fallbackEnabled allowResets fallback resolved [] k p now2).2 ∧
      findState (adjustPointA fallbackEnabled allowResets fallback resolved
          (gcSweep c now retention) k p now2).1 k =
        findState (adjustPointA fallbackEnabled allowResets fallback resolved [] k p now2).1 k) := by
  have hnone : findState (gcSweep c now retention) k = none :=
    findState_gcSweep_stale k retention now c hstale
  refine ⟨hnone, ?_, ?_⟩
  · intro p now2
    exact adjustPointB_none_congr _ k p now2 hnone
  · intro fallbackEnabled allowResets fallback resolved p now2
    exact adjustPointA_none_congr fallbackEnabled allowResets fallback resolved _ k p now2 hnone

/-- Witness for claim C6: a concrete cache whose only entry for the key was
last seen at wall-clock time 10 with retention 3, swept at time 20; the key
is gone and a new Sum point is adjusted exactly as over the empty cache. -/
theorem claim6_gc_fresh_witness :
    (([(⟨"j", "i", "s", []⟩, ⟨5, .sum 1 true, 10⟩)] : Cache).all fun kv =>
      !(decide (kv.1 = ⟨"j", "i", "s", []⟩)) || decide (kv.2.lastSeen + 3 < 20)) = true ∧
    findState (gcSweep [(⟨"j", "i", "s", []⟩, ⟨5, .sum 1 true, 10⟩)] 20 3)
      ⟨"j", "i", "s", []⟩ = none ∧
    (adjustPointB (gcSweep [(⟨"j", "i", "s", []⟩, ⟨5, .sum 1 true, 10⟩)] 20 3)
        ⟨"j", "i", "s", []⟩ ⟨.sum 44 true, 0, 100⟩ 0).2 =
      (adjustPointB [] ⟨"j", "i", "s", []⟩ ⟨.sum 44 true, 0, 100⟩ 0).2 :=
  ⟨by decide,
   (claim6_gc_fresh [(⟨"j", "i", "s", []⟩, ⟨5, .sum 1 true, 10⟩)]
     ⟨"j", "i", "s", []⟩ 3 20 (by decide)).1,
   ((claim6_gc_fresh [(⟨"j", "i", "s", []⟩, ⟨5, .sum 1 true, 10⟩)]
     ⟨"j", "i", "s", []⟩ 3 20 (by decide)).2.1 ⟨.sum 44 true, 0, 100⟩ 0).1⟩

/-! Auxiliary lemma for skipping malformed points. -/

theorem adjustBatch_skip (step : Cache → SeriesKey → Point → Cache × Point)
    (sp : ScrapedPoint) (h : extractPoint sp = none) :
    ∀ (xs : List (SeriesKey × ScrapedPoint)) (c : Cache) (k : SeriesKey)
      (ys : List (SeriesKey × ScrapedPoint)),
      adjustBatch step c (xs ++ (k, sp) :: ys) = adjustBatch step c (xs ++ ys) := by
  intro xs
  induction xs with
  | nil =>
    intro c k ys
    rw [List.nil_append, List.nil_append, adjustBatch_cons_none step c k sp ys h]
  | cons x rest ih =>
    intro c k ys
    obtain ⟨k2, sp2⟩ := x
    rw [List.cons_append, List.cons_append]
    cases hx : extractPoint sp2 with
    | none =>
      rw [adjustBatch_cons_none step c k2 sp2 _ hx,
        adjustBatch_cons_none step c k2 sp2 _ hx]
      exact ih c k ys
    | some p =>
      rw [adjustBatch_cons_some step c k2 sp2 _ p hx,
        adjustBatch_cons_some step c k2 sp2 _ p hx, ih]

/-- Claim C7: a malformed point (one missing the fields required for its
declared kind) is skipped for the cycle by both batch adjusters: the batch
result - both the emitted points and the final cache, so in particular the
cached SeriesState for the malformed point's key - is exactly that of the
batch without the malformed point, the remaining points are processed, and
the adjustment is a total function (the condition is never propagated as a
process-fatal error). -/
theorem claim7_malformed_skip (sp : ScrapedPoint) (h : extractPoint sp = none) :
    (∀ (now : ℕ) (c : Cache) (k : SeriesKey) (xs ys : List (SeriesKey × ScrapedPoint)),
      adjustBatchB now c (xs ++ (k, sp) :: ys) = adjustBatchB now c (xs ++ ys)) ∧
    (∀ (fallbackEnabled allowResets : Bool) (fallback : ℕ) (resolved : Option ℕ)
        (now : ℕ) (c : Cache) (k : SeriesKey) (xs ys : List (SeriesKey × ScrapedPoint)),
      adjustBatchA fallbackEnabled allowResets fallback resolved now c (xs ++ (k, sp) :: ys) =
        adjustBatchA fallbackEnabled allowResets fallback resolved now c (xs ++ ys)) := by
  constructor
  · intro now c k xs ys
    exact adjustBatch_skip _ sp h xs c k ys
  · intro fallbackEnabled allowResets fallback resolved now c k xs ys
    exact adjustBatch_skip _ sp h xs c k ys

/-- Witness for claim C7: a Sum sample with no value is malformed; inserting
it in the middle of a two-point batch leaves the Mode B batch adjustment
unchanged. -/
theorem claim7_malformed_skip_witness :
    extractPoint { kind := .sum } = none ∧
    adjustBatchB 0 []
        ([(⟨"j", "i", "s", []⟩, { kind := .sum, value := some 44, ts := 100 })] ++
          (⟨"j", "i", "s", []⟩, { kind := .sum }) ::
          [(⟨"j", "i", "s", []⟩, { kind := .sum, value := some 55, ts := 200 })]) =
      adjustBatchB 0 []
        ([(⟨"j", "i", "s", []⟩, { kind := .sum, value := some 44, ts := 100 })] ++
          [(⟨"j", "i", "s", []⟩, { kind := .sum, value := some 55, ts := 200 })]) :=
  ⟨rfl,
   (claim7_malformed_skip { kind := .sum } rfl).1 0 [] ⟨"j", "i", "s", []⟩
     [(⟨"j", "i", "s", []⟩, { kind := .sum, value := some 44, ts := 100 })]
     [(⟨"j", "i", "s", []⟩, { kind := .sum, value := some 55, ts := 200 })]⟩

/-- Claim C8: the adjustment mode is selected exactly once at receiver
construction and the two modes are mutually exclusive - the adjuster chosen
by NewAppendable is the initial-point adjuster (Mode B) if and only if
useStartTimeMetric is false, and the start-time-metric adjuster (Mode A, with
the given regex, fallback flag and cumulative-resets flag) if and only if
useStartTimeMetric is true. -/
theorem claim8_mode_selection (useStartTimeMetric : Bool) (regex : Option String)
    (useCreatedMetric useCollectorStartTimeFallback allowCumulativeResets : Bool) :
    (newAppendableAdjuster useStartTimeMetric regex useCreatedMetric
        useCollectorStartTimeFallback allowCumulativeResets =
        .initialPoint useCreatedMetric ↔ useStartTimeMetric = false) ∧
    (newAppendableAdjuster useStartTimeMetric regex useCreatedMetric
        useCollectorStartTimeFallback allowCumulativeResets =
        .startTimeMetric regex useCollectorStartTimeFallback allowCumulativeResets ↔
        useStartTimeMetric = true) := by
  cases useStartTimeMetric <;> simp [newAppendableAdjuster]

/-! Auxiliary lemma describing the success of convertRelabelingRule. -/

theorem convertRelabelingRule_isOk_none (compile : String → Option Matcher)
    (r : RelabelingRule) (he : effMatcher compile r = none) :
    (convertRelabelingRule compile r).isOk = false := by
  by_cases hre : r.regex = ""
  · simp [effMatcher, hre] at he
  · simp only [effMatcher, hre, if_false, ite_false] at he
    simp [convertRelabelingRule, hre, he, Except.isOk, Except.toBool]

theorem convertRelabelingRule_isOk_some (compile : String → Option Matcher)
    (r : RelabelingRule) (m : Matcher) (he : effMatcher compile r = some m) :
    (convertRelabelingRule compile r).isOk =
      (if toLowerStr r.action = "replace" ∨ toLowerStr r.action = "hashmod" ∨
          toLowerStr r.action = "" then
        !(isProtectedLabel r.targetLabel)
      else if toLowerStr r.action = "labeldrop" then !(matchesAnyProtectedLabel m)
      else if toLowerStr r.action = "labelkeep" then matchesAllProtectedLabels m
      else if toLowerStr r.action = "labelmap" then false
      else if toLowerStr r.action = "keep" ∨ toLowerStr r.action = "drop" then true
      else false) := by
  by_cases hre : r.regex = ""
  · simp only [effMatcher, hre, if_true, ite_true, eq_self_iff_true, Option.some.injEq] at he
    simp only [convertRelabelingRule, hre, if_true, ite_true, eq_self_iff_true]
    rw [← he]
    split_ifs <;> simp_all [Except.isOk, Except.toBool]
  · simp only [effMatcher, hre, if_false, ite_false] at he
    simp only [convertRelabelingRule, hre, he, if_false, ite_false]
    split_ifs <;> simp_all [Except.isOk, Except.toBool]

/-- Claim C9 (amended): convertRelabelingRule never returns a configuration
that can modify a protected target label - it returns an error (and no
config) for every rule whose lowercased action is replace, hashmod or empty
with a protected target label, for every labeldrop rule whose effective regex
matches some protected label, for every labelkeep rule whose effective regex
fails to match all protected labels, and for every labelmap rule
unconditionally; keep and drop rules are accepted whenever their regex field
is empty or compiles, and a rule whose non-empty regex fails to compile is
rejected regardless of action (this last point is what falsifies the claim's
"keep and drop rules are always accepted"). -/
theorem claim9_relabel_protection (compile : String → Option Matcher) (r : RelabelingRule) :
    ((toLowerStr r.action = "replace" ∨ toLowerStr r.action = "hashmod" ∨ toLowerStr r.action = "") →
      isProtectedLabel r.targetLabel = true →
      (convertRelabelingRule compile r).isOk = false) ∧
    (toLowerStr r.action = "labelmap" → (convertRelabelingRule compile r).isOk = false) ∧
    (∀ m, toLowerStr r.action = "labeldrop" → effMatcher compile r = some m →
      matchesAnyProtectedLabel m = true → (convertRelabelingRule compile r).isOk = false) ∧
    (∀ m, toLowerStr r.action = "labelkeep" → effMatcher compile r = some m →
      matchesAllProtectedLabels m = false → (convertRelabelingRule compile r).isOk = false) ∧
    ((toLowerStr r.action = "keep" ∨ toLowerStr r.action = "drop") →
      ∀ m, effMatcher compile r = some m → (convertRelabelingRule compile r).isOk = true) ∧
    (r.regex ≠ "" → compile r.regex = none → (convertRelabelingRule compile r).isOk = false) := by
  refine ⟨?_, ?_, ?_, ?_, ?_, ?_⟩
  · intro h1 hp
    cases he : effMatcher compile r with
    | none => exact convertRelabelingRule_isOk_none compile r he
    | some re =>
      rw [convertRelabelingRule_isOk_some compile r re he, if_pos h1, hp]
      rfl
  · intro h2
    cases he : effMatcher compile r with
    | none => exact convertRelabelingRule_isOk_none compile r he
    | some re =>
      rw [convertRelabelingRule_isOk_some compile r re he, h2]
      simp
  · intro m h2 he hd
    rw [convertRelabelingRule_isOk_some compile r m he, h2]
    simp [hd]
  · intro m h3 he hk
    rw [convertRelabelingRule_isOk_some compile r m he, h3]
    simp [hk]
  · intro h5 m he
    rw [convertRelabelingRule_isOk_some compile r m he]
    cases h5 with
    | inl hk =>
      rw [hk]
      simp
    | inr hd =>
      rw [hd]
      simp
  · intro hre hc
    have he : effMatcher compile r = none := by
      simp only [effMatcher, hre, if_false, ite_false]
      exact hc
    exact convertRelabelingRule_isOk_none compile r he

/-- Witness for claim C9: a keep rule with an empty regex field is accepted
by convertRelabelingRule. -/
theorem claim9_relabel_protection_witness :
    effMatcher (fun _ => none) { action := "keep" } = some (fun _ => true) ∧
    (convertRelabelingRule (fun _ => none) { action := "keep" }).isOk = true :=
  ⟨rfl,
   (claim9_relabel_protection (fun _ => none) { action := "keep" }).2.2.2.2.1
     (Or.inl (by decide)) (fun _ => true) rfl⟩

/-- Claim C9 counterexample: a keep rule whose regex does not compile (the
regex string is an unbalanced open parenthesis, which the Go regexp engine
rejects, so the external compile function returns none for it) is rejected by
convertRelabelingRule, so keep rules are not always accepted. -/
theorem claim9_cx :
    (convertRelabelingRule
      (fun s => if s = "(" then none else some (fun _ => true))
      { action := "keep", regex := "(" }).isOk = false := by
  decide

/-- Claim C10: every OTel receiver pipeline generated from a
RunMonitoringConfig configures the prometheus receiver with preserve_untyped,
use_start_time_metric, use_collector_start_time_fallback and
allow_cumulative_resets all set to true, so a receiver built from this
configuration always installs the Mode A (start-time-metric) adjuster with
the collector-start-time fallback and cumulative resets enabled. -/
theorem claim10_pipeline_flags (compile : String → Option Matcher)
    (parseDuration : String → Option ℕ) (rc : RunMonitoringConfig)
    (pl : ReceiverPipeline)
    (h : OTelReceiverPipeline compile parseDuration rc = .ok pl) :
    pl.receiver.type = "prometheus" ∧
    pl.receiver.preserveUntyped = true ∧
    pl.receiver.useStartTimeMetric = true ∧
    pl.receiver.useCollectorStartTimeFallback = true ∧
    pl.receiver.allowCumulativeResets = true ∧
    (∀ (regex : Option String) (useCreatedMetric : Bool),
      newAppendableAdjuster pl.receiver.useStartTimeMetric regex useCreatedMetric
        pl.receiver.useCollectorStartTimeFallback pl.receiver.allowCumulativeResets =
        .startTimeMetric regex true true) := by
  unfold OTelReceiverPipeline at h
  cases hs : scrapeConfigs compile parseDuration rc rc.endpoints with
  | error e =>
    rw [hs] at h
    exact absurd h (by simp)
  | ok scs =>
    rw [hs] at h
    simp only [Except.ok.injEq] at h
    rw [← h]
    refine ⟨rfl, rfl, rfl, rfl, rfl, ?_⟩
    intro regex useCreatedMetric
    rfl

/-- The duration parser instance used by the claim C10 witness ("60s" in
nanoseconds, matching the default RunMonitoring scrape interval). -/
def pdW : String → Option ℕ :=
  fun s => if s = "60s" then some (60 * 10 ^ 9) else none

/-- The default RunMonitoringConfig (DefaultRunMonitoringConfig with the test
Cloud Run environment), used by the claim C10 witness. -/
def rcW : RunMonitoringConfig :=
  { name := "run-gmp-sidecar",
    endpoints := [{ port := "8080", path := "/metrics", interval := "60s" }],
    targetLabelsMetadata := some allowedTargetMetadata,
    limits := none,
    env := some ⟨"test_service", "test_revision", "test_configuration"⟩ }

/-- The pipeline generated from the default configuration, used by the claim
C10 witness. -/
def plW : ReceiverPipeline :=
  (OTelReceiverPipeline (fun _ => none) pdW rcW).toOption.getD
    ⟨⟨"", false, false, false, false, []⟩, []⟩

/-- Witness for claim C10: the pipeline generated from the default
RunMonitoringConfig exists and carries the four receiver flags set to
true. -/
theorem claim10_pipeline_flags_witness :
    OTelReceiverPipeline (fun _ => none) pdW rcW = .ok plW ∧
    plW.receiver.preserveUntyped = true ∧
    plW.receiver.useStartTimeMetric = true ∧
    plW.receiver.useCollectorStartTimeFallback = true ∧
    plW.receiver.allowCumulativeResets = true :=
  ⟨rfl,
   (claim10_pipeline_flags (fun _ => none) pdW rcW plW rfl).2.1,
   (claim10_pipeline_flags (fun _ => none) pdW rcW plW rfl).2.2.1,
   (claim10_pipeline_flags (fun _ => none) pdW rcW plW rfl).2.2.2.1,
   (claim10_pipeline_flags (fun _ => none) pdW rcW plW rfl).2.2.2.2.1⟩

end RunGMP
